import Mathlib

/-!
Verification of `src/bot.py` (tg_weather_bot): a Telegram bot that fetches
city weather from OpenWeatherMap through a `requests_cache` wrapper and
formats a reply.

Shallow embedding conventions:
* JSON numbers are modelled as exact rationals (`ℚ`); every numeric value
  occurring in the claims is far from a rounding tie, so the model is robust
  to the float/rational difference.
* Python's built-in `round` (banker's rounding, round-half-to-even) is
  modelled by `pyRound`.
* Python string methods (`strip`, `lower`, `capitalize`, `title`) are
  modelled with case mapping for the ASCII and Russian-alphabet ranges,
  which covers every string the program manipulates.
* The Telegram/aiogram transport and the network are inputs: the handler is
  a function of the incoming message text and of the outcome of the single
  `requests.get` call it performs.
-/

/-- Python's `round`: round half to even (banker's rounding), `bot.py` lines
139-145. -/
def pyRound (q : ℚ) : ℤ :=
  if q - ⌊q⌋ < 1/2 then ⌊q⌋
  else if 1/2 < q - ⌊q⌋ then ⌊q⌋ + 1
  else if 2 ∣ ⌊q⌋ then ⌊q⌋ else ⌊q⌋ + 1

/-! ### Python string helpers -/

/-- Characters removed by Python's `str.strip()` with no argument. -/
def isPySpace (c : Char) : Bool :=
  c = ' ' || c = Char.ofNat 9 || c = Char.ofNat 10 || c = Char.ofNat 13 ||
  c = Char.ofNat 11 || c = Char.ofNat 12

/-- `str.strip()` (bot.py line 113): drop whitespace from both ends. -/
def pyStrip (s : String) : String :=
  String.mk (((s.toList.dropWhile isPySpace).reverse.dropWhile isPySpace).reverse)

/-- Lower-casing of one character, for the ASCII and Russian-alphabet ranges
(the only cased characters the program's strings use). -/
def lowerChar (c : Char) : Char :=
  if ('A' ≤ c ∧ c ≤ 'Z') ∨ ('А' ≤ c ∧ c ≤ 'Я') then Char.ofNat (c.toNat + 32)
  else if c = 'Ё' then 'ё'
  else c

/-- Upper-casing of one character, for the ASCII and Russian-alphabet ranges. -/
def upperChar (c : Char) : Char :=
  if ('a' ≤ c ∧ c ≤ 'z') ∨ ('а' ≤ c ∧ c ≤ 'я') then Char.ofNat (c.toNat - 32)
  else if c = 'ё' then 'Ё'
  else c

/-- `str.lower()` (bot.py line 115). -/
def pyLower (s : String) : String :=
  String.mk (s.toList.map lowerChar)

/-- `str.capitalize()` (bot.py line 142): first character upper-cased, the
rest lower-cased. -/
def pyCapitalize (s : String) : String :=
  match s.toList with
  | [] => ""
  | c :: cs => String.mk (upperChar c :: cs.map lowerChar)

/-- One step of `str.title()`: `inWord` records whether the previous character
was a cased letter. -/
def titleStep : Bool → Char → Bool × Char
  | inWord, c =>
    let isAlpha := ('a' ≤ c ∧ c ≤ 'z') ∨ ('A' ≤ c ∧ c ≤ 'Z') ∨
      ('а' ≤ c ∧ c ≤ 'я') ∨ ('А' ≤ c ∧ c ≤ 'Я') ∨ c = 'ё' ∨ c = 'Ё'
    if isAlpha then (true, if inWord then lowerChar c else upperChar c)
    else (false, c)

def titleGo : Bool → List Char → List Char
  | _, [] => []
  | inWord, c :: cs =>
    let p := titleStep inWord c
    p.2 :: titleGo p.1 cs

/-- `str.title()` (bot.py line 157). -/
def pyTitle (s : String) : String :=
  String.mk (titleGo false s.toList)

/-! ### JSON values (the parsed `response.json()` payload) -/

/-- A parsed JSON value, as produced by `response.json()` in bot.py line 124.
Numbers are exact rationals. -/
inductive JVal where
  | num (q : ℚ)
  | str (s : String)
  | bool (b : Bool)
  | null
  | arr (xs : List JVal)
  | obj (kvs : List (String × JVal))

/-- Python `d[k]` / `k in d` lookup for an object; `none` models the
`KeyError` (or `TypeError` on a non-object) that the handler's generic
`except` branch catches. -/
def JVal.get? : JVal → String → Option JVal
  | .obj kvs, k => kvs.lookup k
  | _, _ => none

/-- A JSON value usable as a Python number (argument of `round`,
multiplication, `fromtimestamp`); anything else raises `TypeError` in the
source, landing in the generic `except` branch. -/
def asNum? : JVal → Option ℚ
  | .num q => some q
  | _ => none

/-- A JSON value usable as a Python string (receiver of `.capitalize()`). -/
def asStr? : JVal → Option String
  | .str s => some s
  | _ => none

/-- Rendering of a JSON value inside a Python f-string. Scalars are exact;
container and non-integer renderings are abbreviated (no claim formats a
container or a non-integer value). -/
def jvalStr : JVal → String
  | .str s => s
  | .num q => if q.den = 1 then toString q.num else toString q
  | .bool b => if b then "True" else "False"
  | .null => "None"
  | .arr _ => "[...]"
  | .obj _ => "..."

/-- Two-digit zero-padded rendering of a number in `[0, 59]`. -/
def pad2 (n : ℤ) : String :=
  if n < 10 then "0" ++ toString n else toString n

/-- The `datetime.fromtimestamp(t).strftime` rendering of a clock time
(bot.py lines 146-147), modelled at UTC offset zero. No claim depends on the
rendered clock time. -/
def fmtHM (t : ℤ) : String :=
  pad2 ((t / 3600) % 24) ++ ":" ++ pad2 ((t % 3600) / 60)

/-! ### The weather summary (bot.py lines 134-147) -/

/-- The values the handler extracts from a 200 payload, bot.py lines 139-147.
Fields carry the source's local-variable names. `humidity` is embedded into
the reply untransformed, so any JSON value is accepted for it (as in the
source). -/
structure WeatherSummary where
  temperature : ℤ
  feels_like : ℤ
  humidity : JVal
  description : String
  wind_speed : ℤ
  wind_gust : ℤ
  pressure : ℤ
  sunrise : String
  sunset : String

/-- Extraction of the summary from the parsed 200 payload, bot.py lines
134-147. `none` models any exception (`KeyError`, `IndexError`, `TypeError`)
raised in that block, which the generic `except Exception` catches. -/
def extractSummary (weather_data : JVal) : Option WeatherSummary := do
  let mainJ ← weather_data.get? "main"
  let weatherList ← weather_data.get? "weather"
  let weather ← match weatherList with
    | .arr (w :: _) => some w
    | _ => none
  let wind ← weather_data.get? "wind"
  let sys_info ← weather_data.get? "sys"
  let temp ← (mainJ.get? "temp").bind asNum?
  let feels ← (mainJ.get? "feels_like").bind asNum?
  let humidity ← mainJ.get? "humidity"
  let descr ← (weather.get? "description").bind asStr?
  let speed ← match wind.get? "speed" with
    | none => some (0 : ℚ)
    | some v => asNum? v
  let gust ← match wind.get? "gust" with
    | none => some (0 : ℚ)
    | some v => asNum? v
  let pressureQ ← (mainJ.get? "pressure").bind asNum?
  let sunriseQ ← (sys_info.get? "sunrise").bind asNum?
  let sunsetQ ← (sys_info.get? "sunset").bind asNum?
  pure {
    temperature := pyRound temp
    feels_like := pyRound feels
    humidity := humidity
    description := pyCapitalize descr
    wind_speed := pyRound speed
    wind_gust := pyRound gust
    pressure := pyRound (pressureQ * 0.75006)
    sunrise := fmtHM ⌊sunriseQ⌋
    sunset := fmtHM ⌊sunsetQ⌋ }

/-- `gust_text`, bot.py line 149: the gust annotation, shown only when the
rounded gust exceeds the rounded sustained speed. -/
def gust_text (wind_speed wind_gust : ℤ) : String :=
  if wind_gust > wind_speed then " (порывы до " ++ toString wind_gust ++ " м/с)" else ""

/-- `cache_status`, bot.py line 153. -/
def cache_status (from_cache : Bool) : String :=
  if from_cache then " 📁 (из кэша)" else " 🌐 (обновлено)"

/-- The successful reply template, bot.py lines 156-169, including the final
`.strip()`. `now` is the rendered current timestamp. -/
def formatWeather (city : String) (s : WeatherSummary) (from_cache : Bool) (now : String) : String :=
  pyStrip
    ("\n🌤️ *Погода в " ++ pyTitle city ++ "* " ++ cache_status from_cache ++
     "\n\n🌡️ *" ++ toString s.temperature ++ "°C* (ощущается как " ++
     toString s.feels_like ++ "°C) — " ++ s.description ++
     "\n\n💧 Влажность: " ++ jvalStr s.humidity ++ "%" ++
     "\n🌪 Ветер: " ++ toString s.wind_speed ++ " м/с " ++
     gust_text s.wind_speed s.wind_gust ++
     "\n📊 Давление: " ++ toString s.pressure ++ " мм рт. ст." ++
     "\n\n🌅 Рассвет: " ++ s.sunrise ++
     "\n🌇 Закат: " ++ s.sunset ++
     "\n\n*Обновлено:* " ++ now ++ "\n")

/-! ### The text-message handler `get_weather` (bot.py lines 110-177) -/

/-- Outcome of the single `requests.get` + `response.json()` call the handler
performs (bot.py lines 122-124). `ok` carries the HTTP status, the parsed
JSON body, and the two attributes the cache-provenance check on line 152
reads: whether the response object is a `CachedResponse`, and its
`from_cache` attribute. `netError` is a raised
`requests.exceptions.RequestException`. -/
inductive FetchResult where
  | ok (status : ℕ) (body : JVal) (isCachedResponse : Bool) (fromCacheAttr : Bool)
  | netError

/-- What the handler did: whether it performed the weather lookup (reached
`requests.get`), the text of the placeholder message it sent, and the text it
finally edited the placeholder to. -/
structure HandlerOutput where
  performedLookup : Bool
  loadingText : Option String
  finalReply : Option String
deriving DecidableEq

/-- The generic-failure reply, bot.py line 177. -/
def genericErrorReply : String := "Произошла ошибка. Попробуйте другой город."

/-- The network-failure reply, bot.py line 174. -/
def netErrorReply : String := "Нет интернета (используется кэш). Попробуйте позже."

/-- The outcome of bot.py lines 128-129: the membership test
`"message" in weather_data` followed by the indexing `weather_data["message"]`.
`some (some v)` is an object body carrying the field; `some none` is a false
membership test (the plain not-found reply is sent); `none` is a raised
`TypeError` — a number/bool/null body rejects `in` outright, and a string or
list body whose membership test succeeds then raises on the non-integer
index — which propagates to the generic `except Exception` at line 175. -/
def lookupMessage : JVal → Option (Option JVal)
  | .obj kvs =>
    match kvs.lookup "message" with
    | some v => some (some v)
    | none => some none
  | .str s => if ("message" : String).toList <:+: s.toList then none else some none
  | .arr xs =>
    if xs.any fun v => match v with | .str m => m == "message" | _ => false
    then none else some none
  | _ => none

/-- The handler for free-text messages, bot.py lines 110-177, as a function
of the message text, the fetch outcome, and the rendered current time. In
the non-200 branch, a `TypeError` from the body probe (`lookupMessage _ =
none`) is caught by the generic `except Exception` at line 175, which edits
the same placeholder to the apology text. -/
def get_weather (text : String) (fetch : FetchResult) (now : String) : HandlerOutput :=
  let city := pyStrip text
  if pyLower city ∈ (["start", "help"] : List String) then
    ⟨false, none, none⟩
  else
    let loading := "🔍 Ищу погоду для *" ++ city ++ "*..."
    match fetch with
    | .netError => ⟨true, some loading, some netErrorReply⟩
    | .ok status weather_data isCached fromCacheAttr =>
      if status ≠ 200 then
        let error_msg :=
          match lookupMessage weather_data with
          | some (some v) => "Город не найден!" ++ "\n💡 " ++ jvalStr v
          | some none => "Город не найден!"
          | none => genericErrorReply
        ⟨true, some loading, some error_msg⟩
      else
        match extractSummary weather_data with
        | none => ⟨true, some loading, some genericErrorReply⟩
        | some s =>
          let from_cache := isCached && fromCacheAttr
          ⟨true, some loading, some (formatWeather city s from_cache now)⟩

/-! ### Startup (bot.py lines 19-27 and 52-68) -/

/-- Python truthiness of `os.getenv`: `not x` holds for a missing variable
and for the empty string. -/
def pyFalsy : Option String → Bool
  | none => true
  | some s => s == ""

/-- How far the process gets at startup. -/
inductive StartupOutcome where
  | exited (code : ℕ) (printed : String)
  | pollingLoopEntered
deriving DecidableEq

/-- Module-level startup sequence: the secret check on lines 25-27 runs
before anything else; the token validation on lines 66-68 (its network
outcome is the input `token_ok`) runs next; only then is the receive loop of
`main` entered. -/
def startup (bot_token weather_api_key : Option String) (token_ok : Bool) : StartupOutcome :=
  if pyFalsy bot_token || pyFalsy weather_api_key then
    .exited 1 "Создайте .env с BOT_TOKEN и WEATHER_API_KEY!"
  else if !token_ok then
    .exited 1 "Проверьте BOT_TOKEN в .env!"
  else
    .pollingLoopEntered

/-! ### The receive loop `main` (bot.py lines 180-188) -/

/-- Observable events of one pass of the `while True` loop. -/
inductive LoopEvent where
  | poll
  | logged (msg : String)
  | slept (seconds : ℕ)
deriving DecidableEq

def LoopEvent.isLogged : LoopEvent → Bool
  | .logged _ => true
  | _ => false

def LoopEvent.isSleep : LoopEvent → Bool
  | .slept _ => true
  | _ => false

/-- One iteration of the `while True` body, lines 183-188: `start_polling` is
called; if it raises (`outcome = some e`), the error is logged once and the
loop sleeps 10 seconds; otherwise the loop just repeats. -/
def loopIteration : Option String → List LoopEvent
  | none => [.poll]
  | some e => [.poll, .logged ("Ошибка: " ++ e), .slept 10]

/-- The event trace of the first `n` iterations, given the outcome of each
`start_polling` call. Total for every `n`: the loop has no exit. -/
def loopTrace (outcomes : ℕ → Option String) : ℕ → List LoopEvent
  | 0 => []
  | n + 1 => loopTrace outcomes n ++ loopIteration (outcomes n)

/-! ### The HTTP cache wrapper (requests_cache, configured on lines 31-35) -/

/-- Modelled from the spec: the `requests_cache` store is not part of this
repository; section 4.2 of the spec specifies `get(url) -> (body, fromCache)`
over a URL-keyed store of bodies with their store time. -/
structure CacheState where
  entries : List (String × String × ℕ)

/-- Modelled from the spec: the observable outcome of one cache-wrapped GET.
`isCachedResponse`/`fromCacheAttr` are the response-object attributes the
bot's line-152 provenance check reads; per the spec's section 9 open
question, a cache-served response carries both. -/
structure CacheGetResult where
  body? : Option String
  isCachedResponse : Bool
  fromCacheAttr : Bool
  networkCalled : Bool
  state : CacheState

/-- Modelled from the spec (section 4.2): serve a stored response younger
than the TTL without a network call; otherwise attempt a live fetch
(`live = none` models network failure), storing a fresh success, falling
back to any stored response regardless of staleness on failure, and
propagating the failure only when nothing is stored. -/
def cacheGet (st : CacheState) (url : String) (now ttl : ℕ) (live : Option String) : CacheGetResult :=
  match st.entries.lookup url with
  | some (b, storedAt) =>
    if now - storedAt < ttl then ⟨some b, true, true, false, st⟩
    else
      match live with
      | some fresh => ⟨some fresh, false, false, true, ⟨(url, fresh, now) :: st.entries⟩⟩
      | none => ⟨some b, true, true, true, st⟩
  | none =>
    match live with
    | some fresh => ⟨some fresh, false, false, true, ⟨(url, fresh, now) :: st.entries⟩⟩
    | none => ⟨none, false, false, true, st⟩

/-! ### Concrete payloads used by the witnesses -/

/-- The key/value list of a well-formed 200 payload with the given numeric
fields and wind object. -/
def weatherFields (temp feels hum : ℚ) (descr : String)
    (windFields : List (String × JVal)) (prs sunriseT sunsetT : ℚ) : List (String × JVal) :=
  [("weather", .arr [.obj [("description", .str descr), ("id", .num 800)]]),
   ("main", .obj [("temp", .num temp), ("feels_like", .num feels),
                  ("humidity", .num hum), ("pressure", .num prs)]),
   ("wind", .obj windFields),
   ("sys", .obj [("sunrise", .num sunriseT), ("sunset", .num sunsetT)])]

/-- A well-formed 200 payload with the given numeric fields and wind object. -/
def mkWeatherBody (temp feels hum : ℚ) (descr : String)
    (windFields : List (String × JVal)) (prs sunriseT sunsetT : ℚ) : JVal :=
  .obj (weatherFields temp feels hum descr windFields prs sunriseT sunsetT)

/-- The payload of the spec's section-8 example: `main.temp=21.4`,
`main.feels_like=19.6`, `wind.speed=3.2`, `wind.gust=5.8`,
`main.pressure=1013`. -/
def exampleBody : JVal :=
  mkWeatherBody 21.4 19.6 56 "clear sky"
    [("speed", .num 3.2), ("gust", .num 5.8)] 1013 1650000000 1650040000

/-- The same payload with an extra irrelevant top-level key: extraction cannot
tell it from `exampleBody`. -/
def exampleBody2 : JVal :=
  .obj (("clouds", .obj [("all", .num 0)]) ::
    weatherFields 21.4 19.6 56 "clear sky"
      [("speed", .num 3.2), ("gust", .num 5.8)] 1013 1650000000 1650040000)

/-- The section-8 payload with an empty `wind` object: both `wind.speed` and
`wind.gust` are absent. -/
def exampleBodyNoWind : JVal :=
  mkWeatherBody 21.4 19.6 56 "clear sky" [] 1013 1650000000 1650040000

/-- What bot.py lines 139-147 compute from `exampleBody`. -/
def exampleSummary : WeatherSummary :=
  ⟨21, 20, .num 56, "Clear sky", 3, 6, 760, "05:20", "16:26"⟩

/-- What bot.py lines 139-147 compute from `exampleBodyNoWind`. -/
def exampleSummaryNoWind : WeatherSummary :=
  ⟨21, 20, .num 56, "Clear sky", 0, 0, 760, "05:20", "16:26"⟩

/-- `pat` occurs as a substring of `s`. -/
abbrev strContains (pat s : String) : Prop := pat.toList <:+: s.toList

/-! ## Theorems -/

set_option maxRecDepth 8000

theorem pyRound_bounds (q : ℚ) : ⌊q⌋ ≤ pyRound q ∧ pyRound q ≤ ⌊q⌋ + 1 := by
  unfold pyRound
  split_ifs <;> omega

/-- `pyRound` is a round-to-nearest function: the result is within 1/2 of the
argument. -/
theorem pyRound_nearest (q : ℚ) : |q - (pyRound q : ℚ)| ≤ 1/2 := by
  have h0 : (⌊q⌋ : ℚ) ≤ q := Int.floor_le q
  have h1 : q < ⌊q⌋ + 1 := Int.lt_floor_add_one q
  unfold pyRound
  split_ifs with hlt hgt hev
  · rw [abs_le]; constructor <;> linarith
  · rw [abs_le]; constructor <;> push_cast <;> linarith
  · have : q - ⌊q⌋ = 1/2 := le_antisymm (not_lt.mp hgt) (not_lt.mp hlt)
    rw [abs_le]; constructor <;> linarith
  · have : q - ⌊q⌋ = 1/2 := le_antisymm (not_lt.mp hgt) (not_lt.mp hlt)
    rw [abs_le]; constructor <;> push_cast <;> linarith

theorem pyRound_mono {q r : ℚ} (h : q ≤ r) : pyRound q ≤ pyRound r := by
  have hf : ⌊q⌋ ≤ ⌊r⌋ := Int.floor_le_floor h
  rcases lt_or_eq_of_le hf with hlt | heq
  · have hq := (pyRound_bounds q).2
    have hr := (pyRound_bounds r).1
    omega
  · have hfr : q - (⌊q⌋ : ℚ) ≤ r - (⌊r⌋ : ℚ) := by
      rw [← heq]
      linarith
    unfold pyRound
    rw [heq] at hfr ⊢
    split_ifs <;> first | omega | (exfalso; linarith)

theorem pyRound_strict {q r : ℚ} (h : pyRound q < pyRound r) : q < r := by
  by_contra hle
  exact absurd (pyRound_mono (not_lt.mp hle)) (not_le.mpr h)

theorem pyRound_nonneg {q : ℚ} (h : 0 ≤ q) : 0 ≤ pyRound q := by
  have h0 : pyRound (0 : ℚ) = 0 := by norm_num [pyRound]
  have := pyRound_mono h
  omega

theorem pyRound_zero : pyRound 0 = 0 := by norm_num [pyRound]

theorem pyRound_example_temp : pyRound (21.4 : ℚ) = 21 := by norm_num [pyRound]

theorem pyRound_example_feels : pyRound (19.6 : ℚ) = 20 := by norm_num [pyRound]

theorem pyRound_example_speed : pyRound (3.2 : ℚ) = 3 := by norm_num [pyRound]

theorem pyRound_example_gust : pyRound (5.8 : ℚ) = 6 := by norm_num [pyRound]

theorem pyRound_example_pressure : pyRound ((1013 : ℚ) * 0.75006) = 760 := by
  norm_num [pyRound]

theorem floor_example_sunrise : (⌊(1650000000 : ℚ)⌋ : ℤ) = 1650000000 := by norm_num

theorem floor_example_sunset : (⌊(1650040000 : ℚ)⌋ : ℤ) = 1650040000 := by norm_num

theorem toList_append (a b : String) : (a ++ b).toList = a.toList ++ b.toList :=
  String.data_append a b

theorem strContains_refl (p : String) : strContains p p :=
  ⟨[], [], by simp⟩

theorem strContains_appendRight {p a : String} (h : strContains p a) (b : String) :
    strContains p (a ++ b) := by
  obtain ⟨u, v, huv⟩ := h
  exact ⟨u, v ++ b.toList, by rw [toList_append, ← huv]; simp⟩

theorem strContains_appendLeft {p b : String} (h : strContains p b) (a : String) :
    strContains p (a ++ b) := by
  obtain ⟨u, v, huv⟩ := h
  exact ⟨a.toList ++ u, v, by rw [toList_append, ← huv]; simp⟩

/-- The gust annotation is nonempty exactly when the rounded gust strictly
exceeds the rounded sustained speed. -/
theorem gust_text_ne_iff (ws wg : ℤ) : gust_text ws wg ≠ "" ↔ ws < wg := by
  unfold gust_text
  split_ifs with h
  · refine ⟨fun _ => h, fun _ heq => ?_⟩
    have hlen := congrArg String.length heq
    simp only [String.length_append] at hlen
    have h1 : (" (порывы до " : String).length = 12 := by decide
    have h2 : ("" : String).length = 0 := by decide
    omega
  · simpa using h

theorem extract_mk_both (t f h : ℚ) (d : String) (sp g prs sr ss : ℚ) :
    extractSummary (mkWeatherBody t f h d [("speed", .num sp), ("gust", .num g)] prs sr ss) =
    some ⟨pyRound t, pyRound f, .num h, pyCapitalize d, pyRound sp, pyRound g,
          pyRound (prs * 0.75006), fmtHM ⌊sr⌋, fmtHM ⌊ss⌋⟩ := rfl

theorem extract_mk_gust_only (t f h : ℚ) (d : String) (g prs sr ss : ℚ) :
    extractSummary (mkWeatherBody t f h d [("gust", .num g)] prs sr ss) =
    some ⟨pyRound t, pyRound f, .num h, pyCapitalize d, pyRound 0, pyRound g,
          pyRound (prs * 0.75006), fmtHM ⌊sr⌋, fmtHM ⌊ss⌋⟩ := rfl

theorem extract_mk_speed_only (t f h : ℚ) (d : String) (sp prs sr ss : ℚ) :
    extractSummary (mkWeatherBody t f h d [("speed", .num sp)] prs sr ss) =
    some ⟨pyRound t, pyRound f, .num h, pyCapitalize d, pyRound sp, pyRound 0,
          pyRound (prs * 0.75006), fmtHM ⌊sr⌋, fmtHM ⌊ss⌋⟩ := rfl

theorem extract_mk_no_wind (t f h : ℚ) (d : String) (prs sr ss : ℚ) :
    extractSummary (mkWeatherBody t f h d [] prs sr ss) =
    some ⟨pyRound t, pyRound f, .num h, pyCapitalize d, pyRound 0, pyRound 0,
          pyRound (prs * 0.75006), fmtHM ⌊sr⌋, fmtHM ⌊ss⌋⟩ := rfl

/-- Extraction only reads the four known keys, so an extra top-level key is
invisible to it. -/
theorem extract_skip_clouds (v : JVal) (kvs : List (String × JVal)) :
    extractSummary (.obj (("clouds", v) :: kvs)) = extractSummary (.obj kvs) := rfl

theorem extract_example : extractSummary exampleBody = some exampleSummary := by
  unfold exampleBody
  rw [extract_mk_both, pyRound_example_temp, pyRound_example_feels, pyRound_example_speed,
      pyRound_example_gust, pyRound_example_pressure, floor_example_sunrise,
      floor_example_sunset]
  rfl

theorem extract_example2 : extractSummary exampleBody2 = some exampleSummary := by
  unfold exampleBody2
  rw [extract_skip_clouds]
  exact extract_example

theorem extract_example_no_wind :
    extractSummary exampleBodyNoWind = some exampleSummaryNoWind := by
  unfold exampleBodyNoWind
  rw [extract_mk_no_wind, pyRound_example_temp, pyRound_example_feels, pyRound_zero,
      pyRound_example_pressure, floor_example_sunrise, floor_example_sunset]
  rfl

theorem reply_example :
    get_weather "москва" (.ok 200 exampleBody true true) "12:00 01.01.2025" =
    ⟨true, some "🔍 Ищу погоду для *москва*...",
     some (formatWeather "москва" exampleSummary true "12:00 01.01.2025")⟩ := by
  rw [get_weather]
  simp only [extract_example]
  decide

theorem reply_example_no_wind :
    get_weather "москва" (.ok 200 exampleBodyNoWind true true) "12:00 01.01.2025" =
    ⟨true, some "🔍 Ищу погоду для *москва*...",
     some (formatWeather "москва" exampleSummaryNoWind true "12:00 01.01.2025")⟩ := by
  rw [get_weather]
  simp only [extract_example_no_wind]
  decide

/-- C1: for every successfully parsed 200 weather response, the formatted
reply displays the wind-gust annotation only if the gust speed is strictly
greater than the sustained wind speed; in particular, for wind.speed=3.2 and
wind.gust=5.8 the reply shows wind 3 m/s with a gust annotation. -/
theorem C1_gust_annotation_only_if_strictly_greater :
    (∀ (t f h : ℚ) (d : String) (sp g prs sr ss : ℚ) (s : WeatherSummary),
      extractSummary (mkWeatherBody t f h d
        [("speed", .num sp), ("gust", .num g)] prs sr ss) = some s →
      gust_text s.wind_speed s.wind_gust ≠ "" → sp < g) ∧
    (∃ r, (get_weather "москва" (.ok 200 exampleBody true true)
        "12:00 01.01.2025").finalReply = some r ∧
      strContains "🌪 Ветер: 3 м/с  (порывы до 6 м/с)" r) := by
  constructor
  · intro t f h d sp g prs sr ss s hs hshown
    rw [extract_mk_both] at hs
    cases hs
    exact pyRound_strict ((gust_text_ne_iff _ _).mp hshown)
  · exact ⟨_, by rw [reply_example], by decide⟩

theorem C1_witness :
    extractSummary exampleBody = some exampleSummary ∧
    gust_text exampleSummary.wind_speed exampleSummary.wind_gust ≠ "" ∧
    (3.2 : ℚ) < 5.8 :=
  ⟨extract_example, by decide,
   C1_gust_annotation_only_if_strictly_greater.1 21.4 19.6 56 "clear sky" 3.2 5.8
     1013 1650000000 1650040000 exampleSummary extract_example (by decide)⟩

/-- C2: for every successfully parsed 200 weather response, the reply shows
temperature and feels-like rounded to the nearest integer and pressure
converted from hPa to mmHg by multiplication with the fixed constant 0.75006
then rounded; in particular main.temp=21.4 yields 21, main.feels_like=19.6
yields 20, and main.pressure=1013 yields 760 mmHg. -/
theorem C2_temperature_pressure_transforms :
    (∀ q : ℚ, |q - (pyRound q : ℚ)| ≤ 1/2) ∧
    (∀ (t f h : ℚ) (d : String) (sp g prs sr ss : ℚ) (s : WeatherSummary),
      extractSummary (mkWeatherBody t f h d
        [("speed", .num sp), ("gust", .num g)] prs sr ss) = some s →
      s.temperature = pyRound t ∧ s.feels_like = pyRound f ∧
      s.pressure = pyRound (prs * 0.75006)) ∧
    pyRound (21.4 : ℚ) = 21 ∧ pyRound (19.6 : ℚ) = 20 ∧
    pyRound ((1013 : ℚ) * 0.75006) = 760 ∧
    (∃ r, (get_weather "москва" (.ok 200 exampleBody true true)
        "12:00 01.01.2025").finalReply = some r ∧
      strContains "*21°C* (ощущается как 20°C)" r ∧
      strContains "Давление: 760 мм рт. ст." r) := by
  refine ⟨pyRound_nearest, ?_, pyRound_example_temp, pyRound_example_feels,
    pyRound_example_pressure, _, by rw [reply_example], by decide, by decide⟩
  intro t f h d sp g prs sr ss s hs
  rw [extract_mk_both] at hs
  cases hs
  exact ⟨rfl, rfl, rfl⟩

theorem C2_witness :
    extractSummary exampleBody = some exampleSummary ∧
    exampleSummary.temperature = pyRound (21.4 : ℚ) ∧
    exampleSummary.feels_like = pyRound (19.6 : ℚ) ∧
    exampleSummary.pressure = pyRound ((1013 : ℚ) * 0.75006) :=
  ⟨extract_example,
   C2_temperature_pressure_transforms.2.1 21.4 19.6 56 "clear sky" 3.2 5.8
     1013 1650000000 1650040000 exampleSummary extract_example⟩

/-- C3 counterexample: a non-200 response whose JSON body is not an object —
here status 404 with body `null` — does not produce the city-not-found reply:
the membership test of line 128 raises `TypeError`, the generic handler edits
the apology text, and "Город не найден" does not occur in it. -/
theorem C3_counterexample :
    (get_weather "париж" (.ok 404 .null false false)
      "12:00 01.01.2025").finalReply = some genericErrorReply ∧
    ¬ strContains "Город не найден" genericErrorReply :=
  ⟨by decide, by decide⟩

/-- C3 (amended): for every upstream response with a non-200 status whose
JSON body is an object, the handler builds no weather summary: the edited
reply is exactly the city-not-found text, which contains "Город не найден",
extended by the upstream message text when the body has a "message" field.
(A non-200 response with a non-object body instead raises in the membership
test and is recovered with the generic apology reply.) -/
theorem C3_not_found_reply (text : String) (status : ℕ)
    (kvs : List (String × JVal)) (isC fca : Bool) (now : String)
    (hstatus : status ≠ 200)
    (htext : pyLower (pyStrip text) ∉ (["start", "help"] : List String)) :
    ∃ r, (get_weather text (.ok status (.obj kvs) isC fca) now).finalReply =
        some r ∧
      strContains "Город не найден" r ∧
      (kvs.lookup "message" = none → r = "Город не найден!") ∧
      (∀ m, kvs.lookup "message" = some (.str m) →
        r = "Город не найден!" ++ "\n💡 " ++ m ∧ strContains m r) := by
  rcases hmsg : kvs.lookup "message" with _ | v
  · refine ⟨"Город не найден!", ?_, by decide, fun _ => rfl, ?_⟩
    · simp only [get_weather, if_neg htext, if_pos hstatus, lookupMessage, hmsg]
    · intro m hm
      exact Option.noConfusion hm
  · refine ⟨"Город не найден!" ++ "\n💡 " ++ jvalStr v, ?_, ?_, ?_, ?_⟩
    · simp only [get_weather, if_neg htext, if_pos hstatus, lookupMessage, hmsg]
    · exact strContains_appendRight
        (strContains_appendRight (by decide) "\n💡 ") (jvalStr v)
    · intro hnone
      exact Option.noConfusion hnone
    · intro m hm
      cases Option.some.inj hm
      exact ⟨rfl, strContains_appendLeft (strContains_refl m)
        ("Город не найден!" ++ "\n💡 ")⟩

theorem C3_witness :
    (404 : ℕ) ≠ 200 ∧
    pyLower (pyStrip "париж") ∉ (["start", "help"] : List String) ∧
    (∃ r, (get_weather "париж"
        (.ok 404 (.obj [("message", .str "city not found")]) false false)
        "12:00 01.01.2025").finalReply = some r ∧
      strContains "Город не найден" r ∧
      (List.lookup "message" [("message", JVal.str "city not found")] = none →
        r = "Город не найден!") ∧
      (∀ m, List.lookup "message" [("message", JVal.str "city not found")] =
          some (.str m) →
        r = "Город не найден!" ++ "\n💡 " ++ m ∧ strContains m r)) :=
  ⟨by decide, by decide,
   C3_not_found_reply "париж" 404 [("message", .str "city not found")]
     false false "12:00 01.01.2025" (by decide) (by decide)⟩

/-- C4: for every configuration in which the bot secret or the weather-API
secret is absent from the environment, startup prints a user-facing message
and terminates the process (exit code 1) before the receive loop is ever
entered. -/
theorem C4_missing_secrets_fail_fast (bt wk : Option String) (tok : Bool)
    (h : bt = none ∨ wk = none) :
    startup bt wk tok = .exited 1 "Создайте .env с BOT_TOKEN и WEATHER_API_KEY!" ∧
    startup bt wk tok ≠ .pollingLoopEntered := by
  have hf : (pyFalsy bt || pyFalsy wk) = true := by
    rcases h with h | h <;> subst h <;> simp [pyFalsy]
  unfold startup
  rw [if_pos hf]
  exact ⟨rfl, fun hcon => StartupOutcome.noConfusion hcon⟩

theorem C4_witness :
    ((none : Option String) = none ∨ (some "key" : Option String) = none) ∧
    startup none (some "key") true =
      .exited 1 "Создайте .env с BOT_TOKEN и WEATHER_API_KEY!" ∧
    startup none (some "key") true ≠ .pollingLoopEntered :=
  ⟨Or.inl rfl, C4_missing_secrets_fail_fast none (some "key") true (Or.inl rfl)⟩

/-- C5: every fault inside the weather handler is recovered within the
handler: whenever the lookup is performed a final reply is always produced; a
network exception yields the cached/offline reply and an extraction fault on
a 200 response yields the generic apology reply. -/
theorem C5_handler_errors_recovered (text : String) (fetch : FetchResult)
    (now : String)
    (hlookup : (get_weather text fetch now).performedLookup = true) :
    (∃ r, (get_weather text fetch now).finalReply = some r) ∧
    (fetch = .netError →
      (get_weather text fetch now).finalReply = some netErrorReply) ∧
    (∀ status body isC fca, fetch = .ok status body isC fca → status = 200 →
      extractSummary body = none →
      (get_weather text fetch now).finalReply = some genericErrorReply) := by
  by_cases ht : pyLower (pyStrip text) ∈ (["start", "help"] : List String)
  · rw [get_weather, if_pos ht] at hlookup
    exact Bool.noConfusion hlookup
  · rcases fetch with ⟨status, body, isC, fca⟩ | _
    · refine ⟨?_, fun hcon => FetchResult.noConfusion hcon, ?_⟩
      · simp only [get_weather, if_neg ht]
        by_cases hst : status ≠ 200
        · simp only [if_pos hst]
          exact ⟨_, rfl⟩
        · simp only [if_neg hst]
          cases hx : extractSummary body
          · simp only [hx]
            exact ⟨_, rfl⟩
          · simp only [hx]
            exact ⟨_, rfl⟩
      · intro status2 body2 isC2 fca2 heq h200 hx
        cases heq
        subst h200
        simp only [get_weather, if_neg ht, if_neg (fun hcon : ¬(200 = 200) => hcon rfl), hx]
    · refine ⟨⟨netErrorReply, ?_⟩, fun _ => ?_,
        fun st bd c a heq => FetchResult.noConfusion heq⟩ <;>
      rw [get_weather, if_neg ht]

theorem C5_witness :
    (get_weather "париж" .netError "12:00 01.01.2025").performedLookup = true ∧
    (get_weather "париж" .netError "12:00 01.01.2025").finalReply =
      some netErrorReply :=
  ⟨by decide,
   (C5_handler_errors_recovered "париж" .netError "12:00 01.01.2025"
     (by decide)).2.1 rfl⟩

/-- C6: for every exception escaping the polling call, the receive loop logs
exactly one error, sleeps the fixed interval of 10 seconds (every sleep the
loop ever performs is 10 seconds — no backoff growth), and restarts polling;
the trace is defined for every iteration count and each iteration polls
again, so the loop has no shutdown path. -/
theorem C6_receive_loop_retry (o : ℕ → Option String) (n : ℕ) (e : String)
    (h : o n = some e) :
    loopIteration (o n) = [.poll, .logged ("Ошибка: " ++ e), .slept 10] ∧
    (loopIteration (o n)).countP LoopEvent.isLogged = 1 ∧
    (∀ m s, LoopEvent.slept s ∈ loopIteration (o m) → s = 10) ∧
    (∀ m, loopTrace o (m + 1) = loopTrace o m ++ loopIteration (o m) ∧
      LoopEvent.poll ∈ loopIteration (o m)) := by
  refine ⟨by rw [h]; rfl, by rw [h]; rfl, ?_, ?_⟩
  · intro m s hs
    cases hm : o m with
    | none =>
      rw [hm] at hs
      simp [loopIteration] at hs
    | some e2 =>
      rw [hm] at hs
      simp [loopIteration] at hs
      exact hs
  · intro m
    refine ⟨rfl, ?_⟩
    cases hm : o m <;> simp [loopIteration]

theorem C6_witness :
    (fun _ : ℕ => some "boom") 0 = some "boom" ∧
    loopIteration ((fun _ : ℕ => some "boom") 0) =
      [.poll, .logged ("Ошибка: " ++ "boom"), .slept 10] :=
  ⟨rfl, (C6_receive_loop_retry (fun _ => some "boom") 0 "boom" rfl).1⟩

/-- C7: a text message that strips and lower-cases to the reserved word
"start" or "help" causes the handler to return immediately: no lookup, no
placeholder, no reply. -/
theorem C7_reserved_words_no_lookup (text : String) (fetch : FetchResult)
    (now : String)
    (h : pyLower (pyStrip text) ∈ (["start", "help"] : List String)) :
    get_weather text fetch now = ⟨false, none, none⟩ := by
  rw [get_weather, if_pos h]

theorem C7_witness :
    pyLower (pyStrip "start") ∈ (["start", "help"] : List String) ∧
    get_weather "start" .netError "12:00 01.01.2025" = ⟨false, none, none⟩ ∧
    get_weather "help" .netError "12:00 01.01.2025" = ⟨false, none, none⟩ :=
  ⟨by decide,
   C7_reserved_words_no_lookup "start" .netError "12:00 01.01.2025" (by decide),
   C7_reserved_words_no_lookup "help" .netError "12:00 01.01.2025" (by decide)⟩

theorem cacheGet_miss_store (st : CacheState) (url fresh : String) (now ttl : ℕ)
    (h : st.entries.lookup url = none) :
    cacheGet st url now ttl (some fresh) =
      ⟨some fresh, false, false, true, ⟨(url, fresh, now) :: st.entries⟩⟩ := by
  unfold cacheGet
  rw [h]

theorem cacheGet_hit (st : CacheState) (url b : String) (storedAt now ttl : ℕ)
    (live : Option String) (h : st.entries.lookup url = some (b, storedAt))
    (hfresh : now - storedAt < ttl) :
    cacheGet st url now ttl live = ⟨some b, true, true, false, st⟩ := by
  unfold cacheGet
  simp only [h, if_pos hfresh]

/-- C8: a URL fetched twice within the TTL window hits the cache on the
second fetch — no network call, a cache-origin response carrying the
`CachedResponse`/`from_cache=True` attributes — and the bot's provenance
check then puts the from-cache indicator into the reply. -/
theorem C8_cache_hit_within_ttl :
    (∀ (st : CacheState) (url fresh : String) (t1 t2 ttl : ℕ)
       (live2 : Option String),
      st.entries.lookup url = none → t2 - t1 < ttl →
      (cacheGet (cacheGet st url t1 ttl (some fresh)).state url t2 ttl
          live2).networkCalled = false ∧
      (cacheGet (cacheGet st url t1 ttl (some fresh)).state url t2 ttl
          live2).isCachedResponse = true ∧
      (cacheGet (cacheGet st url t1 ttl (some fresh)).state url t2 ttl
          live2).fromCacheAttr = true ∧
      (cacheGet (cacheGet st url t1 ttl (some fresh)).state url t2 ttl
          live2).body? = some fresh) ∧
    (∃ r, (get_weather "москва" (.ok 200 exampleBody true true)
        "12:00 01.01.2025").finalReply = some r ∧
      strContains "📁 (из кэша)" r) := by
  constructor
  · intro st url fresh t1 t2 ttl live2 hmiss httl
    rw [cacheGet_miss_store st url fresh t1 ttl hmiss]
    rw [cacheGet_hit ⟨(url, fresh, t1) :: st.entries⟩ url fresh t1 t2 ttl live2
      (by simp [List.lookup]) httl]
    exact ⟨rfl, rfl, rfl, rfl⟩
  · exact ⟨_, by rw [reply_example], by decide⟩

theorem C8_witness :
    (⟨[]⟩ : CacheState).entries.lookup "u" = none ∧ 5 - 0 < 600 ∧
    (cacheGet (cacheGet ⟨[]⟩ "u" 0 600 (some "B")).state "u" 5 600
        none).networkCalled = false ∧
    (cacheGet (cacheGet ⟨[]⟩ "u" 0 600 (some "B")).state "u" 5 600
        none).isCachedResponse = true ∧
    (cacheGet (cacheGet ⟨[]⟩ "u" 0 600 (some "B")).state "u" 5 600
        none).fromCacheAttr = true ∧
    (cacheGet (cacheGet ⟨[]⟩ "u" 0 600 (some "B")).state "u" 5 600
        none).body? = some "B" :=
  ⟨rfl, by decide,
   C8_cache_hit_within_ttl.1 ⟨[]⟩ "u" "B" 0 5 600 none rfl (by decide)⟩

/-- C9 counterexample: formatting is not a function of the summary and the
cache-origin flag alone — the embedded current timestamp makes two
formattings of the very same summary and flag differ. -/
theorem C9_formatting_counterexample :
    formatWeather "москва" exampleSummary true "10:00 01.01.2025" ≠
    formatWeather "москва" exampleSummary true "11:00 01.01.2025" := by
  decide

/-- C9 (amended): formatting the reply is a pure, deterministic function of
the requested city, the extracted summary, the cache-origin flag, and the
rendered current timestamp: two fetch outcomes agreeing on the extracted
summary and on the provenance conjunction produce identical handler output,
and the success reply factors through `formatWeather` on exactly those four
inputs. -/
theorem C9_formatting_pure (text now : String) (b1 b2 : JVal)
    (c1 a1 c2 a2 : Bool)
    (hsum : extractSummary b1 = extractSummary b2)
    (hflag : (c1 && a1) = (c2 && a2)) :
    get_weather text (.ok 200 b1 c1 a1) now =
      get_weather text (.ok 200 b2 c2 a2) now ∧
    (∀ s, extractSummary b1 = some s →
      pyLower (pyStrip text) ∉ (["start", "help"] : List String) →
      (get_weather text (.ok 200 b1 c1 a1) now).finalReply =
        some (formatWeather (pyStrip text) s (c1 && a1) now)) := by
  constructor
  · by_cases ht : pyLower (pyStrip text) ∈ (["start", "help"] : List String)
    · simp only [get_weather, if_pos ht]
    · simp only [get_weather, if_neg ht, if_neg (fun hcon : ¬(200 = 200) => hcon rfl),
        hsum, hflag]
  · intro s hs ht
    simp only [get_weather, if_neg ht, if_neg (fun hcon : ¬(200 = 200) => hcon rfl), hs]

theorem C9_witness :
    extractSummary exampleBody = extractSummary exampleBody2 ∧
    (true && false) = (false && true) ∧
    get_weather "москва" (.ok 200 exampleBody true false) "12:00 01.01.2025" =
      get_weather "москва" (.ok 200 exampleBody2 false true) "12:00 01.01.2025" :=
  ⟨by rw [extract_example, extract_example2], rfl,
   (C9_formatting_pure "москва" "12:00 01.01.2025" exampleBody exampleBody2
     true false false true (by rw [extract_example, extract_example2]) rfl).1⟩

/-- C10: a 200 response whose wind object omits `speed` or `gust` does not
fall into the generic-failure branch: the missing value defaults to 0, the
reply shows wind 0 m/s when speed is absent, and no gust annotation appears
when gust is absent and the wind speed is non-negative. -/
theorem C10_missing_wind_defaults :
    (∀ (t f h : ℚ) (d : String) (g prs sr ss : ℚ),
      ∃ s, extractSummary (mkWeatherBody t f h d
          [("gust", .num g)] prs sr ss) = some s ∧ s.wind_speed = 0) ∧
    (∀ (t f h : ℚ) (d : String) (sp prs sr ss : ℚ), 0 ≤ sp →
      ∃ s, extractSummary (mkWeatherBody t f h d
          [("speed", .num sp)] prs sr ss) = some s ∧ s.wind_gust = 0 ∧
        gust_text s.wind_speed s.wind_gust = "") ∧
    (∃ r, (get_weather "москва" (.ok 200 exampleBodyNoWind true true)
        "12:00 01.01.2025").finalReply = some r ∧
      strContains "Ветер: 0 м/с" r ∧ ¬ strContains "порывы" r ∧
      r ≠ genericErrorReply) := by
  refine ⟨?_, ?_, _, by rw [reply_example_no_wind], by decide, by decide, by decide⟩
  · intro t f h d g prs sr ss
    exact ⟨_, extract_mk_gust_only t f h d g prs sr ss, pyRound_zero⟩
  · intro t f h d sp prs sr ss hsp
    have hge : 0 ≤ pyRound sp := pyRound_nonneg hsp
    refine ⟨_, extract_mk_speed_only t f h d sp prs sr ss, pyRound_zero, ?_⟩
    show gust_text (pyRound sp) (pyRound 0) = ""
    rw [pyRound_zero]
    unfold gust_text
    rw [if_neg (by omega)]

theorem C10_witness :
    (0 : ℚ) ≤ 3 ∧
    (∃ s, extractSummary (mkWeatherBody 21 20 56 "clear sky"
        [("speed", .num 3)] 1013 1650000000 1650040000) = some s ∧
      s.wind_gust = 0 ∧ gust_text s.wind_speed s.wind_gust = "") :=
  ⟨by decide,
   C10_missing_wind_defaults.2.1 21 20 56 "clear sky" 3 1013 1650000000
     1650040000 (by decide)⟩
